import Mathlib

/-!
Shallow embedding of the BTCMarkets API client (`src/BM_api.py`).

The client builds signed HTTP requests and maps responses to results or
errors.  Pure Python helpers from the standard library that the client
calls (`hmac`/`hashlib.sha512`, `base64.b64encode`, `json.dumps`,
`urllib.parse.urlencode`, `Decimal` fixed-point formatting, f-string
rendering of `None`) are embedded as executable Lean functions; the
network round trip performed by `aiohttp` is modelled as an explicit
function argument from the built request to a `(status, parsed_json)`
pair, so that properties of the form "before any network request" and
"for every response" are expressible.

Python `bytes` credential values are represented by their UTF-8
decoding (a `String`); re-encoding with `utf8Bytes` recovers the raw
bytes fed to `hmac.new`.
-/

/-! ### 64-bit words over `Nat` -/

/-- Truncate to a 64-bit word. -/
def w64 (n : Nat) : Nat := n % 2 ^ 64

/-- Right rotation of a 64-bit word. -/
def rotr64 (x n : Nat) : Nat := w64 ((x >>> n) ||| (x <<< (64 - n)))

/-- Bitwise complement of a 64-bit word. -/
def not64 (x : Nat) : Nat := (2 ^ 64 - 1) ^^^ x

/-! ### SHA-512 (FIPS 180-4), on lists of bytes (`Nat` values < 256) -/

/-- Trial-division primality test, adequate for the small inputs used
to derive the SHA-512 constants. -/
def isPrimeNat (n : Nat) : Bool :=
  decide (2 ≤ n) && (((List.range n).drop 2).all (fun d => n % d ≠ 0))

/-- The first 80 primes, 2 through 409. -/
def first80Primes : List Nat :=
  (List.range 410).filter isPrimeNat

/-- Bisection step for the integer cube root: `lo ^ 3 ≤ x < hi ^ 3`. -/
def icbrtGo (x : Nat) : Nat → Nat → Nat → Nat
  | 0, lo, _ => lo
  | fuel + 1, lo, hi =>
    if hi ≤ lo + 1 then lo
    else
      let mid := (lo + hi) / 2
      if mid ^ 3 ≤ x then icbrtGo x fuel mid hi else icbrtGo x fuel lo mid

/-- Integer cube root: the largest `r` with `r ^ 3 ≤ x`. -/
def icbrt (x : Nat) : Nat :=
  icbrtGo x 400 0 (x + 1)

/-- The low 64 bits of the fractional part of the square root of `p`
(FIPS 180-4 initial-value derivation). -/
def frac64sqrt (p : Nat) : Nat :=
  Nat.sqrt (p * 2 ^ 128) % 2 ^ 64

/-- The low 64 bits of the fractional part of the cube root of `p`
(FIPS 180-4 round-constant derivation). -/
def frac64cbrt (p : Nat) : Nat :=
  icbrt (p * 2 ^ 192) % 2 ^ 64

/-- SHA-512 initial hash values: fractional square roots of the first
8 primes. -/
def sha512H0 : List Nat :=
  (first80Primes.take 8).map frac64sqrt

/-- SHA-512 round constants: fractional cube roots of the first 80
primes. -/
def sha512K : List Nat :=
  first80Primes.map frac64cbrt

/-- Big-endian bytes of a 64-bit word. -/
def be64 (n : Nat) : List Nat :=
  (List.range 8).map (fun i => n / 2 ^ (8 * (7 - i)) % 256)

/-- Big-endian 128-bit length block. -/
def be128 (n : Nat) : List Nat :=
  (List.range 16).map (fun i => n / 2 ^ (8 * (15 - i)) % 256)

/-- Read a big-endian 64-bit word from 8 bytes. -/
def beWord (bs : List Nat) : Nat :=
  bs.foldl (fun acc b => acc * 256 + b) 0

/-- SHA-512 padding: append 0x80, zeros, and the 128-bit bit length. -/
def sha512Pad (msg : List Nat) : List Nat :=
  let padLen := (128 - (msg.length + 17) % 128) % 128
  msg ++ [0x80] ++ List.replicate padLen 0 ++ be128 (msg.length * 8)

/-- Small sigma 0. -/
def sig0 (x : Nat) : Nat := rotr64 x 1 ^^^ rotr64 x 8 ^^^ (x >>> 7)

/-- Small sigma 1. -/
def sig1 (x : Nat) : Nat := rotr64 x 19 ^^^ rotr64 x 61 ^^^ (x >>> 6)

/-- Big sigma 0. -/
def bigSig0 (x : Nat) : Nat := rotr64 x 28 ^^^ rotr64 x 34 ^^^ rotr64 x 39

/-- Big sigma 1. -/
def bigSig1 (x : Nat) : Nat := rotr64 x 14 ^^^ rotr64 x 18 ^^^ rotr64 x 41

/-- Choice function. -/
def shaCh (x y z : Nat) : Nat := (x &&& y) ^^^ (not64 x &&& z)

/-- Majority function. -/
def shaMaj (x y z : Nat) : Nat := (x &&& y) ^^^ (x &&& z) ^^^ (y &&& z)

/-- Extend the first 16 message-schedule words to 80. -/
def sha512Schedule (w16 : List Nat) : List Nat :=
  (List.range 64).foldl
    (fun w i =>
      w ++ [w64 (sig1 (w.getD (i + 14) 0) + w.getD (i + 9) 0 +
                 sig0 (w.getD (i + 1) 0) + w.getD i 0)])
    w16

/-- One SHA-512 compression round state. -/
abbrev ShaState := Nat × Nat × Nat × Nat × Nat × Nat × Nat × Nat

/-- Process one 128-byte block. -/
def sha512Compress (hs : List Nat) (block : List Nat) : List Nat :=
  let w16 := (List.range 16).map (fun i => beWord ((block.drop (8 * i)).take 8))
  let w := sha512Schedule w16
  let st0 : ShaState :=
    (hs.getD 0 0, hs.getD 1 0, hs.getD 2 0, hs.getD 3 0,
     hs.getD 4 0, hs.getD 5 0, hs.getD 6 0, hs.getD 7 0)
  let stf := (w.zip sha512K).foldl
    (fun (st : ShaState) (wk : Nat × Nat) =>
      let (a, b, c, d, e, f, g, h) := st
      let t1 := w64 (h + bigSig1 e + shaCh e f g + wk.2 + wk.1)
      let t2 := w64 (bigSig0 a + shaMaj a b c)
      (w64 (t1 + t2), a, b, c, w64 (d + t1), e, f, g)) st0
  let (a, b, c, d, e, f, g, h) := stf
  List.zipWith (fun x y => w64 (x + y)) hs [a, b, c, d, e, f, g, h]

/-- SHA-512 digest (64 bytes) of a byte list. -/
def sha512 (msg : List Nat) : List Nat :=
  let padded := sha512Pad msg
  let blocks := (List.range (padded.length / 128)).map
    (fun i => (padded.drop (128 * i)).take 128)
  let hs := blocks.foldl sha512Compress sha512H0
  (hs.map be64).flatten

/-! ### HMAC-SHA512 and base64 -/

/-- HMAC-SHA512 (RFC 2104) over byte lists; block size 128. -/
def hmacSha512 (key msg : List Nat) : List Nat :=
  let k0 := if 128 < key.length then sha512 key else key
  let kp := k0 ++ List.replicate (128 - k0.length) 0
  let ip := kp.map (fun b => b ^^^ 0x36)
  let op := kp.map (fun b => b ^^^ 0x5c)
  sha512 (op ++ sha512 (ip ++ msg))

/-- The base64 alphabet. -/
def b64Char (n : Nat) : Char :=
  ("ABCDEFGHIJKLMNOPQRSTUVWXYZabcdefghijklmnopqrstuvwxyz0123456789+/".data).getD n 'A'

/-- Standard base64 encoding with padding, as `base64.b64encode`. -/
def b64encode : List Nat → String
  | [] => ""
  | [a] =>
    String.mk [b64Char (a / 4), b64Char (a % 4 * 16), '=', '=']
  | [a, b] =>
    String.mk [b64Char (a / 4), b64Char (a % 4 * 16 + b / 16), b64Char (b % 16 * 4), '=']
  | a :: b :: c :: rest =>
    String.mk [b64Char (a / 4), b64Char (a % 4 * 16 + b / 16),
               b64Char (b % 16 * 4 + c / 64), b64Char (c % 64)] ++ b64encode rest

/-! ### UTF-8 encoding -/

/-- UTF-8 bytes of one Unicode code point. -/
def utf8Char (c : Char) : List Nat :=
  let n := c.toNat
  if n < 0x80 then [n]
  else if n < 0x800 then
    [0xC0 ||| (n >>> 6), 0x80 ||| (n &&& 0x3F)]
  else if n < 0x10000 then
    [0xE0 ||| (n >>> 12), 0x80 ||| ((n >>> 6) &&& 0x3F), 0x80 ||| (n &&& 0x3F)]
  else
    [0xF0 ||| (n >>> 18), 0x80 ||| ((n >>> 12) &&& 0x3F),
     0x80 ||| ((n >>> 6) &&& 0x3F), 0x80 ||| (n &&& 0x3F)]

/-- UTF-8 bytes of a string, as Python `str.encode` with no arguments beyond utf-8. -/
def utf8Bytes (s : String) : List Nat :=
  (s.data.map utf8Char).flatten

/-! ### Python `json.dumps` on ordered string-to-string mappings -/

/-- Lowercase hex digit. -/
def hexDigitLower (n : Nat) : Char :=
  ("0123456789abcdef".data).getD n '0'

/-- Uppercase hex digit. -/
def hexDigitUpper (n : Nat) : Char :=
  ("0123456789ABCDEF".data).getD n '0'

/-- Four lowercase hex digits of a value below 0x10000. -/
def hex4Lower (n : Nat) : List Char :=
  [hexDigitLower (n / 4096 % 16), hexDigitLower (n / 256 % 16),
   hexDigitLower (n / 16 % 16), hexDigitLower (n % 16)]

/-- `json.dumps` escaping of one character (default `ensure_ascii=True`):
backslash, double quote, the named control escapes, other characters
outside the printable ASCII range as lowercase u-escapes, with
surrogate pairs above 0xFFFF. -/
def jsonEscapeChar (c : Char) : List Char :=
  let n := c.toNat
  if c = '"' then ['\\', '"']
  else if c = '\\' then ['\\', '\\']
  else if n = 8 then ['\\', 'b']
  else if n = 9 then ['\\', 't']
  else if n = 10 then ['\\', 'n']
  else if n = 12 then ['\\', 'f']
  else if n = 13 then ['\\', 'r']
  else if 0x20 ≤ n ∧ n ≤ 0x7E then [c]
  else if n < 0x10000 then '\\' :: 'u' :: hex4Lower n
  else
    let m := n - 0x10000
    ('\\' :: 'u' :: hex4Lower (0xD800 + m / 1024)) ++
    ('\\' :: 'u' :: hex4Lower (0xDC00 + m % 1024))

/-- A JSON string literal as `json.dumps` renders it. -/
def jsonStr (s : String) : String :=
  "\"" ++ String.mk (s.data.map jsonEscapeChar).flatten ++ "\""

/-- `json.dumps` of an ordered mapping of strings to strings, using the
default separators `\x7b"k": "v", ...\x7d`. -/
def jsonDumps (d : List (String × String)) : String :=
  "\x7b" ++ String.intercalate ", " (d.map (fun kv => jsonStr kv.1 ++ ": " ++ jsonStr kv.2)) ++ "\x7d"

/-! ### Python `urllib.parse.urlencode` -/

/-- `quote_plus` on one UTF-8 byte: ASCII letters, digits, `_.-~`
unchanged, space becomes `+`, everything else percent-encoded with
uppercase hex. -/
def quotePlusByte (b : Nat) : List Char :=
  if (0x41 ≤ b ∧ b ≤ 0x5A) ∨ (0x61 ≤ b ∧ b ≤ 0x7A) ∨ (0x30 ≤ b ∧ b ≤ 0x39) ∨
     b = 0x5F ∨ b = 0x2E ∨ b = 0x2D ∨ b = 0x7E then
    [Char.ofNat b]
  else if b = 0x20 then ['+']
  else ['%', hexDigitUpper (b / 16), hexDigitUpper (b % 16)]

/-- `urllib.parse.quote_plus` of a string. -/
def quotePlus (s : String) : String :=
  String.mk ((utf8Bytes s).map quotePlusByte).flatten

/-- `urllib.parse.urlencode` of an ordered mapping. -/
def urlencode (ps : List (String × String)) : String :=
  String.intercalate "&" (ps.map (fun kv => quotePlus kv.1 ++ "=" ++ quotePlus kv.2))

/-! ### Python `Decimal` and `.8f` fixed-point formatting -/

/-- A Python `Decimal`: sign, coefficient and (negated) exponent, so the
value is `(-1)^neg * mag / 10^exp`.  `exp` may be negative, covering
decimals such as `Decimal("1E+3")`. -/
structure PyDecimal where
  neg : Bool
  mag : Nat
  exp : Int
deriving Repr, DecidableEq

/-- Round-half-even division of `a` by `b` (Python decimal default). -/
def roundHalfEven (a b : Nat) : Nat :=
  let q := a / b
  let r := a % b
  if b < 2 * r then q + 1
  else if 2 * r < b then q
  else if q % 2 = 0 then q else q + 1

/-- The magnitude scaled to 8 fractional digits, with round-half-even. -/
def scaled8 (d : PyDecimal) : Nat :=
  if d.exp ≤ 8 then d.mag * 10 ^ (8 - d.exp).toNat
  else roundHalfEven d.mag (10 ^ (d.exp - 8).toNat)

/-- The 8 fractional digit characters of the scaled magnitude. -/
def frac8 (n : Nat) : String :=
  String.mk ((List.range 8).map (fun i => Char.ofNat (48 + n / 10 ^ (7 - i) % 10)))

/-- Python `f"\x7bd:.8f\x7d"` on a `Decimal`: fixed-point with exactly 8
fractional digits, round-half-even, sign preserved. -/
def formatFixed8 (d : PyDecimal) : String :=
  let n := scaled8 d
  (if d.neg then "-" else "") ++ toString (n / 10 ^ 8) ++ "." ++ frac8 n

/-- `Decimal(0.1)`: the float `0.1` is exactly `3602879701896397 / 2^55`,
so the constructed decimal has coefficient `3602879701896397 * 5^55`
and exponent `-55`. -/
def decimalOfFloatPointOne : PyDecimal :=
  { neg := false, mag := 3602879701896397 * 5 ^ 55, exp := 55 }

/-! ### The client data model (`src/BM_api.py`) -/

/-- `BASE_URL = 'https://api.btcmarkets.net'` (line 12). -/
def BASE_URL : String := "https://api.btcmarkets.net"

/-- Errors the client raises: `AttributeError` from `_get_secrets`
(line 96) and `ValueError` from the response handling (lines 116-118,
156-158), each carrying its message string. -/
inductive ApiError where
  | attributeError (msg : String)
  | valueError (msg : String)
deriving Repr, DecidableEq

/-- The client: `_api_key` and `_api_secret`, each `bytes` or `None`
(lines 14-28).  Byte values are represented by their UTF-8 decoding. -/
structure BTCMarketsAPI where
  api_key : Option String
  api_secret : Option String
deriving Repr, DecidableEq

/-- `_get_secrets` (lines 95-97): raise `AttributeError` when either
credential is `None`, otherwise return the pair. -/
def get_secrets (api : BTCMarketsAPI) : Except ApiError (String × String) :=
  match api.api_key, api.api_secret with
  | some k, some s => Except.ok (k, s)
  | _, _ => Except.error (ApiError.attributeError "api_key or api_secret not set.")

/-- An HTTP request as handed to `session.request`: method, final URL,
optional serialized body, and headers in insertion order. -/
structure HttpRequest where
  method : String
  url : String
  postData : Option String
  headers : List (String × String)
deriving Repr, DecidableEq

/-- The network: maps the issued request to the response status and the
JSON-parsed body (modelled as an ordered string-to-string mapping, the
shape every claim needs).  Stands for `aiohttp` plus `resp.json()`. -/
def Network : Type := HttpRequest → Nat × List (String × String)

/-- Python truthiness of an optional dict: `None` and `\x7b\x7d` are falsy. -/
def isTruthyDict (d : Option (List (String × String))) : Bool :=
  match d with
  | some (_ :: _) => true
  | _ => false

/-- Python truthiness of an optional string: `None` and `""` are falsy. -/
def isTruthyStr (s : Option String) : Bool :=
  match s with
  | some t => t ≠ ""
  | none => false

/-- Membership test `k in result` on a parsed JSON object. -/
def hasKey (result : List (String × String)) (k : String) : Bool :=
  (result.find? (fun kv => kv.1 = k)).isSome

/-- Lookup `result[k]` on a parsed JSON object (first binding). -/
def getKey (result : List (String × String)) (k : String) : String :=
  ((result.find? (fun kv => kv.1 = k)).map (fun kv => kv.2)).getD ""

/-- Request built by `_make_public_http_call` before the round trip
(lines 99-109): fixed headers, `BASE_URL + path`, body `data` (both
public endpoints pass `data=None`, so the body is absent). -/
def mkPublicRequest (method path : String) : HttpRequest :=
  { method := method
    url := BASE_URL ++ path
    postData := none
    headers := [("Accept", "application/json"), ("Accept-Charset", "UTF-8"),
                ("Content-Type", "application/json")] }

/-- `_make_public_http_call` (lines 99-118): issue the request, return
the parsed body on status 200, otherwise raise `ValueError`, with
code and message from the body when both are present. -/
def make_public_http_call (method path : String) (net : Network) :
    Except ApiError (List (String × String)) :=
  let resp := net (mkPublicRequest method path)
  let status := resp.1
  let result := resp.2
  if status = 200 then Except.ok result
  else
    if hasKey result "code" ∧ hasKey result "message" then
      Except.error (ApiError.valueError
        ("HTTP Response code " ++ toString status ++ "; " ++
          getKey result "code" ++ "-" ++ getKey result "message"))
    else
      Except.error (ApiError.valueError ("HTTP Response code " ++ toString status))

/-- The serialized body of a private call (lines 123-124):
`json.dumps(data)` when `data` is truthy, else `None`. -/
def privatePostData (data : Option (List (String × String))) : Option String :=
  if isTruthyDict data then some (jsonDumps (data.getD [])) else none

/-- The query string of a private call (lines 126-128):
`'?' + urlencode(params)` when `params` is truthy, else `""`. -/
def privateQueryString (params : Option (List (String × String))) : String :=
  if isTruthyDict params then "?" ++ urlencode (params.getD []) else ""

/-- The string to sign (lines 130-131): `method + path + time_in_ms`,
with the serialized body appended only when it is truthy. -/
def stringToSign (method path time_in_ms : String) (post_data : Option String) : String :=
  method ++ path ++ time_in_ms ++ post_data.getD ""

/-- The part of `_make_private_http_call` before the round trip
(lines 120-143): serialize the body, build the query string and the
string to sign, fetch the credentials (`AttributeError` when unset),
compute `base64(HMAC-SHA512(secret, string_to_sign))`, and assemble
the URL and headers.  `time_in_ms` is the `str(int(time.time()*1000))`
value, passed in as the clock is external. -/
def mkPrivateRequest (api : BTCMarketsAPI) (method path : String)
    (params data : Option (List (String × String))) (time_in_ms : String) :
    Except ApiError HttpRequest :=
  let post_data := privatePostData data
  let query_string := privateQueryString params
  let string_to_sign := stringToSign method path time_in_ms post_data
  match get_secrets api with
  | Except.error e => Except.error e
  | Except.ok (api_key, api_secret) =>
    let signature := b64encode (hmacSha512 (utf8Bytes api_secret) (utf8Bytes string_to_sign))
    Except.ok
      { method := method
        url := BASE_URL ++ path ++ query_string
        postData := post_data
        headers := [("Accept", "application/json"), ("Accept-Charset", "UTF-8"),
                    ("Content-Type", "application/json"),
                    ("BM-AUTH-APIKEY", api_key),
                    ("BM-AUTH-TIMESTAMP", time_in_ms),
                    ("BM-AUTH-SIGNATURE", signature)] }

/-- `_make_private_http_call` (lines 120-158): build the signed request
(credential failure propagates before any network use), issue it, and
handle the response exactly as the public dispatcher does. -/
def make_private_http_call (api : BTCMarketsAPI) (method path : String)
    (params data : Option (List (String × String))) (time_in_ms : String)
    (net : Network) : Except ApiError (List (String × String)) :=
  match mkPrivateRequest api method path params data time_in_ms with
  | Except.error e => Except.error e
  | Except.ok req =>
    let resp := net req
    let status := resp.1
    let result := resp.2
    if status = 200 then Except.ok result
    else
      if hasKey result "code" ∧ hasKey result "message" then
        Except.error (ApiError.valueError
          ("HTTP Response code " ++ toString status ++ "; " ++
            getKey result "code" ++ "-" ++ getKey result "message"))
      else
        Except.error (ApiError.valueError ("HTTP Response code " ++ toString status))

/-! ### Endpoint wrappers -/

/-- `get_active_markets` (lines 31-34). -/
def get_active_markets (net : Network) : Except ApiError (List (String × String)) :=
  make_public_http_call "GET" "/v3/markets" net

/-- `get_market_orderbook` (lines 36-39). -/
def get_market_orderbook (market_id : String) (net : Network) :
    Except ApiError (List (String × String)) :=
  make_public_http_call "GET" ("/v3/markets/" ++ market_id ++ "/orderbook") net

/-- `get_fee_tier` (lines 42-45). -/
def get_fee_tier (api : BTCMarketsAPI) (time_in_ms : String) (net : Network) :
    Except ApiError (List (String × String)) :=
  make_private_http_call api "GET" "/v3/accounts/me/trading-fees" none none time_in_ms net

/-- `get_balances` (lines 47-50). -/
def get_balances (api : BTCMarketsAPI) (time_in_ms : String) (net : Network) :
    Except ApiError (List (String × String)) :=
  make_private_http_call api "GET" "/v3/accounts/me/balances" none none time_in_ms net

/-- `place_new_order` (lines 52-60): the body is the ordered dict
`marketId, price, amount, type, side` with `price` and `amount`
rendered by `f"\x7b...:.8f\x7d"`. -/
def place_new_order (api : BTCMarketsAPI) (market_id : String)
    (price amount : PyDecimal) (order_type side : String)
    (time_in_ms : String) (net : Network) : Except ApiError (List (String × String)) :=
  make_private_http_call api "POST" "/v3/orders" none
    (some [("marketId", market_id), ("price", formatFixed8 price),
           ("amount", formatFixed8 amount), ("type", order_type), ("side", side)])
    time_in_ms net

/-- `replace_order` (lines 62-67). -/
def replace_order (api : BTCMarketsAPI) (price amount : PyDecimal) (order_id : String)
    (time_in_ms : String) (net : Network) : Except ApiError (List (String × String)) :=
  make_private_http_call api "PUT" ("/v3/orders/" ++ order_id) none
    (some [("price", formatFixed8 price), ("amount", formatFixed8 amount)])
    time_in_ms net

/-- The params dict built by `list_orders` (lines 70-72): each filter is
added only when truthy, in insertion order. -/
def list_orders_params (market_id status : Option String) : List (String × String) :=
  (if isTruthyStr market_id then [("market_id", market_id.getD "")] else []) ++
  (if isTruthyStr status then [("status", status.getD "")] else [])

/-- `list_orders` (lines 69-75). -/
def list_orders (api : BTCMarketsAPI) (market_id status : Option String)
    (time_in_ms : String) (net : Network) : Except ApiError (List (String × String)) :=
  make_private_http_call api "GET" "/v3/orders"
    (some (list_orders_params market_id status)) none time_in_ms net

/-- `get_order` (lines 77-80). -/
def get_order (api : BTCMarketsAPI) (order_id : String)
    (time_in_ms : String) (net : Network) : Except ApiError (List (String × String)) :=
  make_private_http_call api "GET" ("/v3/orders/" ++ order_id) none none time_in_ms net

/-- Python f-string interpolation of an `Optional[str]`: `None` renders
as the four characters `None`. -/
def pyStr (s : Option String) : String :=
  match s with
  | some t => t
  | none => "None"

/-- `cancel_order` (lines 82-85): `order_id` defaults to `None`, and the
path interpolates it via the f-string. -/
def cancel_order (api : BTCMarketsAPI) (order_id : Option String)
    (time_in_ms : String) (net : Network) : Except ApiError (List (String × String)) :=
  make_private_http_call api "DELETE" ("/v3/orders/" ++ pyStr order_id) none none time_in_ms net

/-- The params dict built by `cancel_open_orders` (lines 88-89). -/
def cancel_open_orders_params (market_id : Option String) : List (String × String) :=
  if isTruthyStr market_id then [("market_id", market_id.getD "")] else []

/-- `cancel_open_orders` (lines 87-92). -/
def cancel_open_orders (api : BTCMarketsAPI) (market_id : Option String)
    (time_in_ms : String) (net : Network) : Except ApiError (List (String × String)) :=
  make_private_http_call api "DELETE" "/v3/orders"
    (some (cancel_open_orders_params market_id)) none time_in_ms net

/-! ### Helpers for stating the claims -/

/-- The value of a header on a built request, `none` when the request
construction failed. -/
def headerOf (r : Except ApiError HttpRequest) (k : String) : Option String :=
  match r with
  | Except.ok req => (req.headers.find? (fun kv => kv.1 = k)).map (fun kv => kv.2)
  | Except.error _ => none

/-- The URL of a built request, `none` when construction failed. -/
def urlOf (r : Except ApiError HttpRequest) : Option String :=
  match r with
  | Except.ok req => some req.url
  | Except.error _ => none

/-- The credential error `_get_secrets` raises. -/
def credentialError : ApiError :=
  ApiError.attributeError "api_key or api_secret not set."

/-- Whether a call result is a credential (`AttributeError`) failure. -/
def isCredentialError (r : Except ApiError (List (String × String))) : Bool :=
  match r with
  | Except.error (ApiError.attributeError _) => true
  | _ => false

/-! ### Claims -/

/-- Shape of a successfully built private request: with both credentials
present, `mkPrivateRequest` returns the request with the six headers and
the signature over `method + path + timestamp + body`. -/
theorem mkPrivateRequest_ok (api : BTCMarketsAPI) (k s : String)
    (hk : api.api_key = some k) (hs : api.api_secret = some s)
    (method path time_in_ms : String)
    (params data : Option (List (String × String))) :
    mkPrivateRequest api method path params data time_in_ms =
      Except.ok
        { method := method
          url := BASE_URL ++ path ++ privateQueryString params
          postData := privatePostData data
          headers := [("Accept", "application/json"), ("Accept-Charset", "UTF-8"),
                      ("Content-Type", "application/json"),
                      ("BM-AUTH-APIKEY", k),
                      ("BM-AUTH-TIMESTAMP", time_in_ms),
                      ("BM-AUTH-SIGNATURE",
                        b64encode (hmacSha512 (utf8Bytes s)
                          (utf8Bytes (method ++ path ++ time_in_ms ++
                            (privatePostData data).getD ""))))] } := by
  simp [mkPrivateRequest, get_secrets, hk, hs, stringToSign]

/-- C1: for every authenticated request the attached signature equals
`base64(HMAC-SHA512(secret, method + path + timestamp + serialized_body))`;
with no body the signed string is exactly `method + path + timestamp`,
and the query parameters never enter the signed string.  Determinism is
immediate: the embedding is a pure function of its inputs. -/
theorem c1_private_signature (api : BTCMarketsAPI) (k s : String)
    (hk : api.api_key = some k) (hs : api.api_secret = some s)
    (method path time_in_ms : String)
    (params data : Option (List (String × String))) :
    headerOf (mkPrivateRequest api method path params data time_in_ms) "BM-AUTH-SIGNATURE" =
      some (b64encode (hmacSha512 (utf8Bytes s)
        (utf8Bytes (stringToSign method path time_in_ms (privatePostData data))))) ∧
    (data = none →
      stringToSign method path time_in_ms (privatePostData data) =
        method ++ path ++ time_in_ms) ∧
    (∀ params₂ : Option (List (String × String)),
      headerOf (mkPrivateRequest api method path params₂ data time_in_ms) "BM-AUTH-SIGNATURE" =
      headerOf (mkPrivateRequest api method path params data time_in_ms) "BM-AUTH-SIGNATURE") := by
  refine ⟨?_, ?_, ?_⟩
  · simp [headerOf, mkPrivateRequest, get_secrets, hk, hs, List.find?]
  · intro hd
    subst hd
    simp [stringToSign, privatePostData, isTruthyDict]
  · intro params₂
    simp [headerOf, mkPrivateRequest, get_secrets, hk, hs, List.find?]

/-- Witness for C1 at concrete inputs. -/
theorem c1_private_signature_witness :
    (BTCMarketsAPI.mk (some "k1") (some "s1")).api_key = some "k1" ∧
    (BTCMarketsAPI.mk (some "k1") (some "s1")).api_secret = some "s1" ∧
    (headerOf (mkPrivateRequest (BTCMarketsAPI.mk (some "k1") (some "s1"))
        "GET" "/v3/orders" none none "1700000000000") "BM-AUTH-SIGNATURE" =
      some (b64encode (hmacSha512 (utf8Bytes "s1")
        (utf8Bytes (stringToSign "GET" "/v3/orders" "1700000000000" (privatePostData none))))) ∧
    (none = (none : Option (List (String × String))) →
      stringToSign "GET" "/v3/orders" "1700000000000" (privatePostData none) =
        "GET" ++ "/v3/orders" ++ "1700000000000") ∧
    (∀ params₂ : Option (List (String × String)),
      headerOf (mkPrivateRequest (BTCMarketsAPI.mk (some "k1") (some "s1"))
        "GET" "/v3/orders" params₂ none "1700000000000") "BM-AUTH-SIGNATURE" =
      headerOf (mkPrivateRequest (BTCMarketsAPI.mk (some "k1") (some "s1"))
        "GET" "/v3/orders" none none "1700000000000") "BM-AUTH-SIGNATURE")) :=
  ⟨rfl, rfl, c1_private_signature (BTCMarketsAPI.mk (some "k1") (some "s1")) "k1" "s1"
    rfl rfl "GET" "/v3/orders" "1700000000000" none none⟩

/-- C5: every authenticated request carries exactly the six headers
`Accept`, `Accept-Charset`, `Content-Type: application/json`,
`BM-AUTH-APIKEY`, `BM-AUTH-TIMESTAMP`, `BM-AUTH-SIGNATURE`, in that
order, and the `BM-AUTH-TIMESTAMP` value is the same timestamp string
concatenated into the string the signature was computed over. -/
theorem c5_private_headers (api : BTCMarketsAPI) (k s : String)
    (hk : api.api_key = some k) (hs : api.api_secret = some s)
    (method path time_in_ms : String)
    (params data : Option (List (String × String))) :
    mkPrivateRequest api method path params data time_in_ms =
      Except.ok
        { method := method
          url := BASE_URL ++ path ++ privateQueryString params
          postData := privatePostData data
          headers := [("Accept", "application/json"), ("Accept-Charset", "UTF-8"),
                      ("Content-Type", "application/json"),
                      ("BM-AUTH-APIKEY", k),
                      ("BM-AUTH-TIMESTAMP", time_in_ms),
                      ("BM-AUTH-SIGNATURE",
                        b64encode (hmacSha512 (utf8Bytes s)
                          (utf8Bytes (method ++ path ++ time_in_ms ++
                            (privatePostData data).getD ""))))] } :=
  mkPrivateRequest_ok api k s hk hs method path time_in_ms params data

/-- Witness for C5 at concrete inputs. -/
theorem c5_private_headers_witness :
    (BTCMarketsAPI.mk (some "k1") (some "s1")).api_key = some "k1" ∧
    (BTCMarketsAPI.mk (some "k1") (some "s1")).api_secret = some "s1" ∧
    mkPrivateRequest (BTCMarketsAPI.mk (some "k1") (some "s1"))
        "GET" "/v3/accounts/me/balances" none none "1700000000000" =
      Except.ok
        { method := "GET"
          url := BASE_URL ++ "/v3/accounts/me/balances" ++ privateQueryString none
          postData := privatePostData none
          headers := [("Accept", "application/json"), ("Accept-Charset", "UTF-8"),
                      ("Content-Type", "application/json"),
                      ("BM-AUTH-APIKEY", "k1"),
                      ("BM-AUTH-TIMESTAMP", "1700000000000"),
                      ("BM-AUTH-SIGNATURE",
                        b64encode (hmacSha512 (utf8Bytes "s1")
                          (utf8Bytes ("GET" ++ "/v3/accounts/me/balances" ++ "1700000000000" ++
                            (privatePostData none).getD ""))))] } :=
  ⟨rfl, rfl, c5_private_headers (BTCMarketsAPI.mk (some "k1") (some "s1")) "k1" "s1"
    rfl rfl "GET" "/v3/accounts/me/balances" "1700000000000" none none⟩

/-- C9: `cancel_order` takes its order id as optional, defaulting to
`None`; called without an id it raises no missing-argument error and
issues a DELETE to the path `/v3/orders/None`, the f-string rendering
of `None`. -/
theorem c9_cancel_order_none (api : BTCMarketsAPI) (k s : String)
    (hk : api.api_key = some k) (hs : api.api_secret = some s)
    (time_in_ms : String) (net : Network) :
    cancel_order api none time_in_ms net =
      make_private_http_call api "DELETE" "/v3/orders/None" none none time_in_ms net ∧
    pyStr none = "None" ∧
    (∃ req, mkPrivateRequest api "DELETE" "/v3/orders/None" none none time_in_ms =
        Except.ok req ∧
      req.method = "DELETE" ∧ req.url = BASE_URL ++ "/v3/orders/None") := by
  refine ⟨rfl, rfl,
    ⟨_, mkPrivateRequest_ok api k s hk hs "DELETE" "/v3/orders/None" time_in_ms none none,
      rfl, ?_⟩⟩
  show BASE_URL ++ "/v3/orders/None" ++ privateQueryString none = BASE_URL ++ "/v3/orders/None"
  simp [privateQueryString, isTruthyDict]

/-- Witness for C9 at concrete inputs. -/
theorem c9_cancel_order_none_witness :
    (BTCMarketsAPI.mk (some "k1") (some "s1")).api_key = some "k1" ∧
    (BTCMarketsAPI.mk (some "k1") (some "s1")).api_secret = some "s1" ∧
    (cancel_order (BTCMarketsAPI.mk (some "k1") (some "s1")) none "1700000000000"
        (fun _ => (200, [])) =
      make_private_http_call (BTCMarketsAPI.mk (some "k1") (some "s1")) "DELETE"
        "/v3/orders/None" none none "1700000000000" (fun _ => (200, [])) ∧
    pyStr none = "None" ∧
    (∃ req, mkPrivateRequest (BTCMarketsAPI.mk (some "k1") (some "s1")) "DELETE"
        "/v3/orders/None" none none "1700000000000" = Except.ok req ∧
      req.method = "DELETE" ∧ req.url = BASE_URL ++ "/v3/orders/None")) :=
  ⟨rfl, rfl, c9_cancel_order_none (BTCMarketsAPI.mk (some "k1") (some "s1")) "k1" "s1"
    rfl rfl "1700000000000" (fun _ => (200, []))⟩

/-- With either credential unset, `_get_secrets` raises the
`AttributeError` (helper). -/
theorem get_secrets_none (api : BTCMarketsAPI)
    (h : api.api_key = none ∨ api.api_secret = none) :
    get_secrets api = Except.error credentialError := by
  rcases h with h | h <;>
    cases hk : api.api_key <;> cases hs : api.api_secret <;>
      simp_all [get_secrets, credentialError]

/-- With either credential unset, the private dispatcher fails with the
credential error, for every network (helper). -/
theorem make_private_no_creds (api : BTCMarketsAPI)
    (h : api.api_key = none ∨ api.api_secret = none)
    (method path : String) (params data : Option (List (String × String)))
    (time_in_ms : String) (net : Network) :
    make_private_http_call api method path params data time_in_ms net =
      Except.error credentialError := by
  simp [make_private_http_call, mkPrivateRequest, get_secrets_none api h]

/-- With both credentials present, the private dispatcher never returns
the credential (`AttributeError`) failure (helper). -/
theorem make_private_not_credential (api : BTCMarketsAPI) (k s : String)
    (hk : api.api_key = some k) (hs : api.api_secret = some s)
    (method path : String) (params data : Option (List (String × String)))
    (time_in_ms : String) (net : Network) :
    isCredentialError (make_private_http_call api method path params data time_in_ms net) =
      false := by
  rw [make_private_http_call, mkPrivateRequest_ok api k s hk hs method path time_in_ms params data]
  simp only []
  split
  · rfl
  · split <;> rfl

/-- C2: every private endpoint fails with the credential error when the
key or the secret is unset, independently of the network (no request is
observed); with both present, no call ever returns the credential
error, i.e. it passes the credential check. -/
theorem c2_credential_gate (api : BTCMarketsAPI) (time_in_ms : String) (net : Network) :
    ((api.api_key = none ∨ api.api_secret = none) →
      (get_fee_tier api time_in_ms net = Except.error credentialError ∧
       get_balances api time_in_ms net = Except.error credentialError ∧
       (∀ mid p a ty sd, place_new_order api mid p a ty sd time_in_ms net =
         Except.error credentialError) ∧
       (∀ p a oid, replace_order api p a oid time_in_ms net = Except.error credentialError) ∧
       (∀ mid st, list_orders api mid st time_in_ms net = Except.error credentialError) ∧
       (∀ oid, get_order api oid time_in_ms net = Except.error credentialError) ∧
       (∀ oid, cancel_order api oid time_in_ms net = Except.error credentialError) ∧
       (∀ mid, cancel_open_orders api mid time_in_ms net = Except.error credentialError)) ∧
      (∀ (net₂ : Network) method path params data,
        make_private_http_call api method path params data time_in_ms net₂ =
          make_private_http_call api method path params data time_in_ms net)) ∧
    (∀ k s, api.api_key = some k → api.api_secret = some s →
      isCredentialError (get_fee_tier api time_in_ms net) = false ∧
      isCredentialError (get_balances api time_in_ms net) = false ∧
      (∀ mid p a ty sd,
        isCredentialError (place_new_order api mid p a ty sd time_in_ms net) = false) ∧
      (∀ p a oid, isCredentialError (replace_order api p a oid time_in_ms net) = false) ∧
      (∀ mid st, isCredentialError (list_orders api mid st time_in_ms net) = false) ∧
      (∀ oid, isCredentialError (get_order api oid time_in_ms net) = false) ∧
      (∀ oid, isCredentialError (cancel_order api oid time_in_ms net) = false) ∧
      (∀ mid, isCredentialError (cancel_open_orders api mid time_in_ms net) = false)) := by
  constructor
  · intro h
    refine ⟨⟨?_, ?_, ?_, ?_, ?_, ?_, ?_, ?_⟩, ?_⟩ <;>
      intros <;>
      first
        | exact make_private_no_creds api h _ _ _ _ _ _
        | rw [make_private_no_creds api h, make_private_no_creds api h]
  · intro k s hk hs
    refine ⟨?_, ?_, ?_, ?_, ?_, ?_, ?_, ?_⟩ <;>
      intros <;> exact make_private_not_credential api k s hk hs _ _ _ _ _ _

/-- Witness for C2, exercising both a missing-secret client and a fully
credentialed one. -/
theorem c2_credential_gate_witness :
    get_fee_tier (BTCMarketsAPI.mk (some "k1") none) "1700000000000" (fun _ => (200, [])) =
      Except.error credentialError ∧
    isCredentialError (get_fee_tier (BTCMarketsAPI.mk (some "k1") (some "s1"))
      "1700000000000" (fun _ => (200, []))) = false :=
  ⟨((c2_credential_gate (BTCMarketsAPI.mk (some "k1") none) "1700000000000"
      (fun _ => (200, []))).1 (Or.inr rfl)).1.1,
   ((c2_credential_gate (BTCMarketsAPI.mk (some "k1") (some "s1")) "1700000000000"
      (fun _ => (200, []))).2 "k1" "s1" rfl rfl).1⟩

/-- C3: a non-200 response whose parsed body has both `code` and
`message` raises a `ValueError` carrying the status, the code and the
message; otherwise the `ValueError` carries the status alone — in both
dispatchers. -/
theorem c3_non200_mapping (status : Nat) (result : List (String × String))
    (hstatus : status ≠ 200)
    (api : BTCMarketsAPI) (k s : String)
    (hk : api.api_key = some k) (hs : api.api_secret = some s)
    (method path time_in_ms : String) (params data : Option (List (String × String))) :
    ((hasKey result "code" = true ∧ hasKey result "message" = true) →
      make_public_http_call method path (fun _ => (status, result)) =
        Except.error (ApiError.valueError
          ("HTTP Response code " ++ toString status ++ "; " ++
            getKey result "code" ++ "-" ++ getKey result "message")) ∧
      make_private_http_call api method path params data time_in_ms
          (fun _ => (status, result)) =
        Except.error (ApiError.valueError
          ("HTTP Response code " ++ toString status ++ "; " ++
            getKey result "code" ++ "-" ++ getKey result "message"))) ∧
    ((hasKey result "code" = false ∨ hasKey result "message" = false) →
      make_public_http_call method path (fun _ => (status, result)) =
        Except.error (ApiError.valueError ("HTTP Response code " ++ toString status)) ∧
      make_private_http_call api method path params data time_in_ms
          (fun _ => (status, result)) =
        Except.error (ApiError.valueError ("HTTP Response code " ++ toString status))) := by
  constructor
  · rintro ⟨hcode, hmsg⟩
    constructor
    · simp [make_public_http_call, hstatus, hcode, hmsg]
    · rw [make_private_http_call,
        mkPrivateRequest_ok api k s hk hs method path time_in_ms params data]
      simp [hstatus, hcode, hmsg]
  · intro h
    have hand : ¬(hasKey result "code" ∧ hasKey result "message") := by
      rcases h with h | h <;> simp [h]
    constructor
    · simp [make_public_http_call, hstatus, hand]
    · rw [make_private_http_call,
        mkPrivateRequest_ok api k s hk hs method path time_in_ms params data]
      simp [hstatus, hand]

/-- Witness for C3 at a 400 response, with and without the error
fields. -/
theorem c3_non200_mapping_witness :
    (400 : Nat) ≠ 200 ∧
    make_public_http_call "GET" "/v3/markets"
        (fun _ => (400, [("code", "InvalidMarketId"), ("message", "invalid")])) =
      Except.error (ApiError.valueError
        ("HTTP Response code " ++ toString (400 : Nat) ++ "; " ++
          getKey [("code", "InvalidMarketId"), ("message", "invalid")] "code" ++ "-" ++
          getKey [("code", "InvalidMarketId"), ("message", "invalid")] "message")) ∧
    make_public_http_call "GET" "/v3/markets" (fun _ => (400, [("other", "x")])) =
      Except.error (ApiError.valueError ("HTTP Response code " ++ toString (400 : Nat))) :=
  ⟨by decide,
   (((c3_non200_mapping 400 [("code", "InvalidMarketId"), ("message", "invalid")]
      (by decide) (BTCMarketsAPI.mk (some "k1") (some "s1")) "k1" "s1" rfl rfl
      "GET" "/v3/markets" "1700000000000" none none).1) ⟨by rfl, by rfl⟩).1,
   (((c3_non200_mapping 400 [("other", "x")]
      (by decide) (BTCMarketsAPI.mk (some "k1") (some "s1")) "k1" "s1" rfl rfl
      "GET" "/v3/markets" "1700000000000" none none).2) (Or.inl (by rfl))).1⟩

/-- C7: a 200 response with a parsed JSON body is returned unchanged by
both dispatchers, with no error raised. -/
theorem c7_ok_passthrough (result : List (String × String))
    (api : BTCMarketsAPI) (k s : String)
    (hk : api.api_key = some k) (hs : api.api_secret = some s)
    (method path time_in_ms : String) (params data : Option (List (String × String))) :
    make_public_http_call method path (fun _ => (200, result)) = Except.ok result ∧
    make_private_http_call api method path params data time_in_ms
        (fun _ => (200, result)) = Except.ok result := by
  constructor
  · simp [make_public_http_call]
  · rw [make_private_http_call,
      mkPrivateRequest_ok api k s hk hs method path time_in_ms params data]
    simp

/-- Witness for C7 at a concrete body. -/
theorem c7_ok_passthrough_witness :
    (BTCMarketsAPI.mk (some "k1") (some "s1")).api_key = some "k1" ∧
    (BTCMarketsAPI.mk (some "k1") (some "s1")).api_secret = some "s1" ∧
    (make_public_http_call "GET" "/v3/markets"
        (fun _ => (200, [("marketId", "BTC-AUD")])) =
      Except.ok [("marketId", "BTC-AUD")] ∧
    make_private_http_call (BTCMarketsAPI.mk (some "k1") (some "s1")) "GET"
        "/v3/orders" none none "1700000000000"
        (fun _ => (200, [("marketId", "BTC-AUD")])) =
      Except.ok [("marketId", "BTC-AUD")]) :=
  ⟨rfl, rfl, c7_ok_passthrough [("marketId", "BTC-AUD")]
    (BTCMarketsAPI.mk (some "k1") (some "s1")) "k1" "s1" rfl rfl
    "GET" "/v3/orders" "1700000000000" none none⟩

/-- C4: `place_new_order` sends the body `marketId, price, amount,
type, side` in that order and `replace_order` sends `price, amount`,
with `price` and `amount` rendered to exactly 8 fractional digits
whatever the input precision; in particular `Decimal(0.1)` renders as
`"0.10000000"`. -/
theorem c4_order_payload :
    (∀ (api : BTCMarketsAPI) (mid : String) (price amount : PyDecimal)
        (ty sd time_in_ms : String) (net : Network),
      place_new_order api mid price amount ty sd time_in_ms net =
        make_private_http_call api "POST" "/v3/orders" none
          (some [("marketId", mid), ("price", formatFixed8 price),
                 ("amount", formatFixed8 amount), ("type", ty), ("side", sd)])
          time_in_ms net) ∧
    (∀ (api : BTCMarketsAPI) (price amount : PyDecimal) (oid time_in_ms : String)
        (net : Network),
      replace_order api price amount oid time_in_ms net =
        make_private_http_call api "PUT" ("/v3/orders/" ++ oid) none
          (some [("price", formatFixed8 price), ("amount", formatFixed8 amount)])
          time_in_ms net) ∧
    (∀ d : PyDecimal, ∃ intPart fracPart,
      formatFixed8 d = intPart ++ "." ++ fracPart ∧
      fracPart.length = 8 ∧ ∀ c ∈ fracPart.data, c.isDigit) ∧
    formatFixed8 decimalOfFloatPointOne = "0.10000000" := by
  refine ⟨fun _ _ _ _ _ _ _ _ => rfl, fun _ _ _ _ _ _ => rfl, ?_, by decide⟩
  intro d
  refine ⟨(if d.neg then "-" else "") ++ toString (scaled8 d / 10 ^ 8),
          frac8 (scaled8 d), rfl, rfl, ?_⟩
  intro c hc
  have hdata : (frac8 (scaled8 d)).data =
      (List.range 8).map (fun i => Char.ofNat (48 + scaled8 d / 10 ^ (7 - i) % 10)) := rfl
  rw [hdata] at hc
  obtain ⟨i, _, rfl⟩ := List.mem_map.mp hc
  have h10 : scaled8 d / 10 ^ (7 - i) % 10 < 10 := Nat.mod_lt _ (by norm_num)
  set m := scaled8 d / 10 ^ (7 - i) % 10 with hm
  interval_cases m <;> decide

/-- Witness for C4 (no hypotheses; applies the theorem at a concrete
decimal anyway). -/
theorem c4_order_payload_witness :
    ∃ intPart fracPart,
      formatFixed8 (PyDecimal.mk false 125 10) = intPart ++ "." ++ fracPart ∧
      fracPart.length = 8 ∧ ∀ c ∈ fracPart.data, c.isDigit :=
  c4_order_payload.2.2.1 (PyDecimal.mk false 125 10)

/-- C6: when the query mapping is truthy the private URL is
`BASE_URL + path + '?' + urlencode(params)`; when it is absent the URL
is `BASE_URL + path` and (for the `?`-free paths the client builds)
contains no `?`. -/
theorem c6_private_url (api : BTCMarketsAPI) (k s : String)
    (hk : api.api_key = some k) (hs : api.api_secret = some s)
    (method path time_in_ms : String) (data : Option (List (String × String))) :
    (∀ ps : List (String × String), ps ≠ [] →
      urlOf (mkPrivateRequest api method path (some ps) data time_in_ms) =
        some (BASE_URL ++ path ++ "?" ++ urlencode ps)) ∧
    (∀ params, isTruthyDict params = false →
      urlOf (mkPrivateRequest api method path params data time_in_ms) =
        some (BASE_URL ++ path) ∧
      ('?' ∉ path.data →
        ∀ u, urlOf (mkPrivateRequest api method path params data time_in_ms) = some u →
          '?' ∉ u.data)) := by
  constructor
  · intro ps hps
    rw [mkPrivateRequest_ok api k s hk hs method path time_in_ms (some ps) data]
    have ht : isTruthyDict (some ps) = true := by
      cases ps with
      | nil => exact absurd rfl hps
      | cons a l => rfl
    simp [urlOf, privateQueryString, ht, String.append_assoc]
  · intro params hparams
    have hurl : urlOf (mkPrivateRequest api method path params data time_in_ms) =
        some (BASE_URL ++ path) := by
      rw [mkPrivateRequest_ok api k s hk hs method path time_in_ms params data]
      simp [urlOf, privateQueryString, hparams]
    refine ⟨hurl, fun hpath u hu => ?_⟩
    rw [hurl] at hu
    obtain rfl := Option.some_injective _ hu.symm
    have hdata : (BASE_URL ++ path).data = BASE_URL.data ++ path.data := rfl
    rw [hdata]
    intro hmem
    rcases List.mem_append.mp hmem with h | h
    · revert h
      decide
    · exact hpath h

/-- Witness for C6 at concrete inputs. -/
theorem c6_private_url_witness :
    (BTCMarketsAPI.mk (some "k1") (some "s1")).api_key = some "k1" ∧
    (BTCMarketsAPI.mk (some "k1") (some "s1")).api_secret = some "s1" ∧
    ((∀ ps : List (String × String), ps ≠ [] →
      urlOf (mkPrivateRequest (BTCMarketsAPI.mk (some "k1") (some "s1"))
          "GET" "/v3/orders" (some ps) none "1700000000000") =
        some (BASE_URL ++ "/v3/orders" ++ "?" ++ urlencode ps)) ∧
    (∀ params, isTruthyDict params = false →
      urlOf (mkPrivateRequest (BTCMarketsAPI.mk (some "k1") (some "s1"))
          "GET" "/v3/orders" params none "1700000000000") =
        some (BASE_URL ++ "/v3/orders") ∧
      ('?' ∉ "/v3/orders".data →
        ∀ u, urlOf (mkPrivateRequest (BTCMarketsAPI.mk (some "k1") (some "s1"))
            "GET" "/v3/orders" params none "1700000000000") = some u →
          '?' ∉ u.data))) :=
  ⟨rfl, rfl, c6_private_url (BTCMarketsAPI.mk (some "k1") (some "s1")) "k1" "s1"
    rfl rfl "GET" "/v3/orders" "1700000000000" none⟩

/-- C8: the client's state is exactly the immutable credential pair: two
clients with the same credentials are equal, and every call (secrets
lookup, private dispatch, public dispatch) depends only on that pair.
The source never assigns to `self` after `__init__`, so the embedding
is a pure function of the client and "unchanged credentials" holds by
construction; what remains to prove is that nothing else is observable
state. -/
theorem c8_stateless_client :
    (∀ a b : BTCMarketsAPI, a.api_key = b.api_key → a.api_secret = b.api_secret → a = b) ∧
    (∀ a b : BTCMarketsAPI, a.api_key = b.api_key → a.api_secret = b.api_secret →
      get_secrets a = get_secrets b ∧
      (∀ (method path : String) (params data : Option (List (String × String)))
          (time_in_ms : String) (net : Network),
        make_private_http_call a method path params data time_in_ms net =
          make_private_http_call b method path params data time_in_ms net)) := by
  have hext : ∀ a b : BTCMarketsAPI,
      a.api_key = b.api_key → a.api_secret = b.api_secret → a = b := by
    rintro ⟨ak, asec⟩ ⟨bk, bsec⟩ h1 h2
    simp_all
  refine ⟨hext, fun a b h1 h2 => ?_⟩
  obtain rfl := hext a b h1 h2
  exact ⟨rfl, fun _ _ _ _ _ _ => rfl⟩

/-- Witness for C8 at two syntactically distinct but equal clients. -/
theorem c8_stateless_client_witness :
    get_secrets (BTCMarketsAPI.mk (some "k1") (some "s1")) =
      get_secrets { api_key := some "k1", api_secret := some "s1" } :=
  ((c8_stateless_client.2 (BTCMarketsAPI.mk (some "k1") (some "s1"))
    { api_key := some "k1", api_secret := some "s1" } rfl rfl)).1

/-- C10: in `list_orders` and `cancel_open_orders` an empty-string (or
absent) filter is omitted from the query parameters, so the whole call
— and with it the resulting URL — is the same as with no filter. -/
theorem c10_falsy_filters (api : BTCMarketsAPI) (time_in_ms : String) (net : Network)
    (mid st : Option String)
    (hmid : mid = none ∨ mid = some "") (hst : st = none ∨ st = some "") :
    list_orders api mid st time_in_ms net = list_orders api none none time_in_ms net ∧
    cancel_open_orders api mid time_in_ms net =
      cancel_open_orders api none time_in_ms net ∧
    list_orders_params mid st = [] ∧
    cancel_open_orders_params mid = [] ∧
    (∀ st₂, list_orders_params mid st₂ = list_orders_params none st₂) ∧
    (∀ mid₂, list_orders_params mid₂ st = list_orders_params mid₂ none) := by
  rcases hmid with rfl | rfl <;> rcases hst with rfl | rfl <;>
    exact ⟨rfl, rfl, rfl, rfl, fun st₂ => rfl, fun mid₂ => rfl⟩

/-- Witness for C10 at empty-string filters. -/
theorem c10_falsy_filters_witness :
    ((some "" : Option String) = none ∨ (some "" : Option String) = some "") ∧
    (list_orders (BTCMarketsAPI.mk (some "k1") (some "s1")) (some "") (some "")
        "1700000000000" (fun _ => (200, [])) =
      list_orders (BTCMarketsAPI.mk (some "k1") (some "s1")) none none
        "1700000000000" (fun _ => (200, [])) ∧
    cancel_open_orders (BTCMarketsAPI.mk (some "k1") (some "s1")) (some "")
        "1700000000000" (fun _ => (200, [])) =
      cancel_open_orders (BTCMarketsAPI.mk (some "k1") (some "s1")) none
        "1700000000000" (fun _ => (200, [])) ∧
    list_orders_params (some "") (some "") = [] ∧
    cancel_open_orders_params (some "") = [] ∧
    (∀ st₂, list_orders_params (some "") st₂ = list_orders_params none st₂) ∧
    (∀ mid₂, list_orders_params mid₂ (some "") = list_orders_params mid₂ none)) :=
  ⟨Or.inr rfl,
   c10_falsy_filters (BTCMarketsAPI.mk (some "k1") (some "s1")) "1700000000000"
     (fun _ => (200, [])) (some "") (some "") (Or.inr rfl) (Or.inr rfl)⟩
